import Mathlib

/-!
Shallow embedding of the M-Pesa STK-push payment flow of the zaoconnect
project (`zaoapp/mpesa.py` and the checkout views in `zaoapp/views.py`),
together with theorems checking the claims of the specification about it.

Conventions of the embedding:
* Django model rows become Lean structures; the Order table is a
  `List Order` in query order (`.filter(...).first()` is `List.find?`).
* Network I/O is made explicit: the outcome of each outbound HTTP call
  (token acquisition, STK initiation) is a field of an environment record,
  and the functions report which provider calls they performed.
* Python `Decimal`/`float` money values are modelled as integer counts
  of hundredths (`DecimalField(decimal_places=2)` is exact in cents);
  `int(round(x))` is `pyRound` (round half to even, as the Python builtin `round`).
* JSON dictionaries become structures of `Option` fields (`none` = key
  absent); an undecodable request body is `none` at the payload level.
-/

namespace Zao

/-- Python `s.strip()`: drop leading and trailing whitespace. -/
def pyStrip (s : String) : String :=
  ⟨((s.data.dropWhile (fun c => c.isWhitespace)).reverse.dropWhile
      (fun c => c.isWhitespace)).reverse⟩

/-- Python `s[:n]`: the first `n` characters. -/
def strTake (s : String) (n : Nat) : String :=
  ⟨s.data.take n⟩

/-- Python `s.startswith(p)`. -/
def strStartsWith (s p : String) : Bool :=
  s.data.take p.data.length == p.data

/-- Python `s.replace(" ", "")`: drop every space character. -/
def stripSpaces (s : String) : String :=
  ⟨s.data.filter (fun c => c ≠ ' ')⟩

/-- Python `s.strip().replace(" ", "").replace("-", "").replace("+", "")`
as done by `stk_push` on the phone number. -/
def normalizePhone (s : String) : String :=
  ⟨(pyStrip s).data.filter (fun c => c ≠ ' ' ∧ c ≠ '-' ∧ c ≠ '+')⟩

/-- Python `s.isdigit()`: non-empty and every character a digit. -/
def isDigits (s : String) : Bool :=
  s ≠ "" && s.data.all (fun c => c.isDigit)

/-- Python `int(round(x))` applied to a monetary value given in
hundredths: nearest integer, ties to even (the Python builtin `round`). -/
def pyRound (cents : ℤ) : ℤ :=
  let f : ℤ := Int.fdiv cents 100
  let r : ℤ := cents - 100 * f
  if r < 50 then f
  else if 50 < r then f + 1
  else if f % 2 = 0 then f else f + 1

/-- Order lifecycle states (`Order.STATUS_*` in `models.py`). -/
inductive OrderStatus where
  | pending
  | paid
  | failed
  | cancelled
deriving DecidableEq, Repr

/-- A row of the Order table (`zaoapp/models.py`, class `Order`).
`checkoutRequestId` and `mpesaReceiptNumber` are `blank=True` char
fields, so their default value on creation is the empty string. -/
structure Order where
  id : Nat
  userId : Nat
  totalAmount : ℤ
  phoneNumber : String
  status : OrderStatus
  checkoutRequestId : String
  mpesaReceiptNumber : String
  mpesaResponse : String
  updatedAt : Nat
deriving DecidableEq, Repr

/-- A CartItem row restricted to what `get_total` reads:
`product.price * quantity`. The price is in hundredths of the
currency unit. -/
structure CartItem where
  productPriceCents : ℤ
  quantity : Nat
deriving DecidableEq, Repr

/-- `Cart.get_total`: sum of `item.get_subtotal()` over the cart
items, in hundredths. -/
def cartGetTotal (items : List CartItem) : ℤ :=
  (items.map (fun it => it.productPriceCents * (it.quantity : ℤ))).sum

/-- One element of `Body.stkCallback.CallbackMetadata.Item`. The code
reads `item.get("Name")` and `str(item.get("Value", ""))`; `value` holds
the stringified value, `none` meaning the key is absent. -/
structure MetaItem where
  name : Option String
  value : Option String
deriving DecidableEq, Repr

/-- The `Body.stkCallback` object of a decoded callback payload.
Missing `Body`/`stkCallback` keys collapse to a record of `none`s and
an empty item list, exactly as chained `.get(..., {})` does. -/
structure StkCallback where
  resultCode : Option Int
  checkoutRequestID : Option String
  metadataItems : List MetaItem
deriving DecidableEq, Repr

/-- The JSON body of the HTTP response `mpesa_callback` returns. -/
structure CallbackResponse where
  httpStatus : Nat
  resultCode : Int
  resultDesc : String
deriving DecidableEq, Repr

/-- Best-effort notifications dispatched during reconciliation
(`send_payment_success_email`, `send_admin_payment_notification`,
`send_payment_failed_email`), identified by the order id. -/
inductive Notification where
  | paymentSuccessEmail (orderId : Nat)
  | adminPaymentNotification (orderId : Nat)
  | paymentFailedEmail (orderId : Nat)
deriving DecidableEq, Repr

/-- Result of one call to the callback endpoint: the updated Order
table, the notifications sent, and the HTTP response. -/
structure CallbackResult where
  orders : List Order
  notifications : List Notification
  response : CallbackResponse
deriving DecidableEq, Repr

/-- The acknowledgment envelope `{ResultCode: 0, ResultDesc: "Accepted"}`
on HTTP 200. -/
def ackResponse : CallbackResponse := ⟨200, 0, "Accepted"⟩

/-- Receipt extraction of `mpesa_callback`: first metadata item whose
`Name` is `"MpesaReceiptNumber"`, stringified `Value` (default `""`);
`""` when no such item exists. -/
def extractReceipt (items : List MetaItem) : String :=
  match items.find? (fun it => it.name == some "MpesaReceiptNumber") with
  | some it => it.value.getD ""
  | none => ""

/-- Replace the first order whose `checkoutRequestId` equals `cid` by
`f` of it, leaving the rest of the table unchanged (the single-row
`save()` applied to the result of `.filter(...).first()`). -/
def updateFirst (db : List Order) (cid : String) (f : Order → Order) : List Order :=
  match db with
  | [] => []
  | o :: rest =>
      if o.checkoutRequestId == cid then f o :: rest
      else o :: updateFirst rest cid f

/-- The `mpesa_callback` view (`views.py`) RESTRICTED to requests on
which none of its attribute accesses raises: `bodyStr` is
`json.dumps(body)`, stored on the order for audit; `payload` is the
decode result of the request body (`none` = undecodable JSON, `some` a
well-shaped body whose `Body`/`stkCallback`/metadata chains are
dict-shaped and whose `CheckoutRequestID` is a string or falsy). The
TOTAL behavior of the view — including the decodable but ill-shaped
bodies on which the uncovered attribute accesses raise an uncaught
exception, surfaced by the framework as HTTP 500 — is
`mpesa_callback_view` below, which agrees with this function on
non-raising requests (`mpesa_callback_view_agrees`). -/
def mpesa_callback (db : List Order) (now : Nat) (bodyStr : String)
    (payload : Option StkCallback) : CallbackResult :=
  match payload with
  | none => ⟨db, [], ⟨400, 1, "Invalid JSON"⟩⟩
  | some cb =>
    let cid := pyStrip (cb.checkoutRequestID.getD "")
    if cid = "" then ⟨db, [], ackResponse⟩
    else
      match db.find? (fun o => o.checkoutRequestId == cid) with
      | none => ⟨db, [], ackResponse⟩
      | some o =>
        if cb.resultCode = some 0 then
          let receipt := extractReceipt cb.metadataItems
          let updated : Order :=
            { o with
              mpesaResponse := bodyStr
              mpesaReceiptNumber := receipt
              status := OrderStatus.paid
              updatedAt := now }
          ⟨updateFirst db cid (fun _ => updated),
           [Notification.paymentSuccessEmail o.id,
            Notification.adminPaymentNotification o.id],
           ackResponse⟩
        else
          let updated : Order :=
            { o with
              mpesaResponse := bodyStr
              status := OrderStatus.failed
              updatedAt := now }
          ⟨updateFirst db cid (fun _ => updated),
           [Notification.paymentFailedEmail o.id],
           ackResponse⟩

/-- A JSON value at a place where the view computes
`(x or "").strip()`: the value is absent or falsy (`null`, `""`, `0`,
`false` — all collapse to `""`), a string, or a truthy non-string on
which `.strip()` raises `AttributeError`. -/
inductive JsonStr where
  | absentOrFalsy
  | str (s : String)
  | truthyNonStr
deriving DecidableEq, Repr

/-- The string `(x or "")` evaluates to when it does not raise. -/
def JsonStr.orEmpty : JsonStr → String
  | JsonStr.absentOrFalsy => ""
  | JsonStr.str s => s
  | JsonStr.truthyNonStr => ""

/-- The `CallbackMetadata`/`Item` chain as the success branch reads it:
either a well-typed chain yielding a list of items (absent keys
defaulting as in the code), or an ill-typed one — truthy non-dict
`CallbackMetadata`, non-iterable `Item`, or an element without `.get` —
on which the read raises. -/
inductive MetadataField where
  | items (its : List MetaItem)
  | raising
deriving DecidableEq, Repr

/-- A decodable callback body as the view reads it: `ResultCode` via
`.get` and `== 0` (a non-integer value compares unequal and behaves as
a non-zero code), `CheckoutRequestID` via `(x or "").strip()`, and the
metadata chain read only on the success branch. -/
structure RawCallback where
  resultCode : Option Int
  checkoutRequestID : JsonStr
  metadata : MetadataField
deriving DecidableEq, Repr

/-- An inbound callback request: undecodable JSON (caught, answered
400), decodable JSON that is not dict-shaped at the top —
`body.get`/`.get("stkCallback", ...)` raises before anything else — or
a shaped body. -/
inductive CallbackRequest where
  | undecodable
  | malShaped
  | shaped (cb : RawCallback)
deriving DecidableEq, Repr

/-- Result of one call to the callback endpoint in the total model:
`response = none` means an uncaught exception escaped the view and the
framework answered HTTP 500 (no row written, no notification sent). -/
structure CallbackViewResult where
  orders : List Order
  notifications : List Notification
  response : Option CallbackResponse
deriving DecidableEq, Repr

/-- The TOTAL `mpesa_callback` view (`views.py`): its `try` covers only
`json.loads`, so a decodable but ill-shaped body raises an uncaught
exception (HTTP 500) at the first ill-typed read — at the top-level
`.get` chain, at `.strip()` on a truthy non-string `CheckoutRequestID`,
or at the metadata chain, which is read only after a success result
code matched an Order (each raise happens before `save()`, so the table
and notifications are untouched). -/
def mpesa_callback_view (db : List Order) (now : Nat) (bodyStr : String)
    (req : CallbackRequest) : CallbackViewResult :=
  match req with
  | CallbackRequest.undecodable => ⟨db, [], some ⟨400, 1, "Invalid JSON"⟩⟩
  | CallbackRequest.malShaped => ⟨db, [], none⟩
  | CallbackRequest.shaped cb =>
    if cb.checkoutRequestID = JsonStr.truthyNonStr then ⟨db, [], none⟩
    else
      let cid := pyStrip cb.checkoutRequestID.orEmpty
      if cid = "" then ⟨db, [], some ackResponse⟩
      else
        match db.find? (fun o => o.checkoutRequestId == cid) with
        | none => ⟨db, [], some ackResponse⟩
        | some o =>
          if cb.resultCode = some 0 then
            match cb.metadata with
            | MetadataField.raising => ⟨db, [], none⟩
            | MetadataField.items its =>
              let receipt := extractReceipt its
              let updated : Order :=
                { o with
                  mpesaResponse := bodyStr
                  mpesaReceiptNumber := receipt
                  status := OrderStatus.paid
                  updatedAt := now }
              ⟨updateFirst db cid (fun _ => updated),
               [Notification.paymentSuccessEmail o.id,
                Notification.adminPaymentNotification o.id],
               some ackResponse⟩
          else
            let updated : Order :=
              { o with
                mpesaResponse := bodyStr
                status := OrderStatus.failed
                updatedAt := now }
            ⟨updateFirst db cid (fun _ => updated),
             [Notification.paymentFailedEmail o.id],
             some ackResponse⟩

/-- The `Option String` view of a non-raising `CheckoutRequestID`
value, as `mpesa_callback` receives it. -/
def JsonStr.toOpt : JsonStr → Option String
  | JsonStr.absentOrFalsy => none
  | JsonStr.str s => some s
  | JsonStr.truthyNonStr => none

/-- Outcome of one outbound HTTP call, as distinguished by the
`try/except` ladders in `mpesa.py`: a response with its status code,
raw text and JSON-decode result (`none` = undecodable body), a timeout,
a `requests.RequestException` (connection/SSL included, their messages
collapsed into one string), or any other exception. -/
inductive HttpResult (β : Type) where
  | response (status : Nat) (text : String) (body : Option β)
  | timeout
  | requestError (msg : String)
  | otherError (msg : String)
deriving DecidableEq, Repr

/-- JSON body of the OAuth token response, restricted to the keys
`get_access_token` reads. -/
structure TokenBody where
  error : Option String
  errorDescription : Option String
  accessToken : Option String
deriving DecidableEq, Repr

/-- Settings and network environment of `get_access_token`. -/
structure TokenEnv where
  consumerKey : String
  consumerSecret : String
  http : HttpResult TokenBody
deriving DecidableEq, Repr

/-- `get_access_token` (`mpesa.py`): returns the token or `none`,
paired with whether the outbound token request was actually issued
(credential checks fail before any network call; the Base64 encoding
of the credentials cannot fail and is elided). -/
def get_access_token (env : TokenEnv) : Option String × Bool :=
  let key := pyStrip env.consumerKey
  let secret := pyStrip env.consumerSecret
  if key = "" ∨ secret = "" then (none, false)
  else if key.length < 10 ∨ secret.length < 10 then (none, false)
  else
    match env.http with
    | HttpResult.timeout => (none, true)
    | HttpResult.requestError _ => (none, true)
    | HttpResult.otherError _ => (none, true)
    | HttpResult.response status _text body =>
        if status ≠ 200 then (none, true)
        else
          match body with
          | none => (none, true)
          | some data =>
            if data.error.isSome then (none, true)
            else
              match data.accessToken with
              | none => (none, true)
              | some tok =>
                if tok = "" then (none, true)
                else if tok.length < 10 then (none, true)
                else (some tok, true)

/-- JSON body of the STK-push initiation response, restricted to the
keys `stk_push` reads. `responseCode` holds the already-stringified
`str(data.get("ResponseCode", ""))` value. -/
structure StkBody where
  errorCode : Option String
  errorMessage : Option String
  responseCode : Option String
  checkoutRequestID : Option String
  responseDescription : Option String
deriving DecidableEq, Repr

/-- Settings and network environment of `stk_push`. `diagSuffix`
abstracts the text `diagnose_access_token_issue` appends to the
token-failure message (that diagnostic only formats settings and a
connectivity probe into prose). -/
structure StkEnv where
  tokenEnv : TokenEnv
  diagSuffix : String
  passkey : String
  http : HttpResult StkBody
deriving DecidableEq, Repr

/-- The dict `stk_push` returns, restricted to the keys its callers
read: `success`, `checkout_request_id` (`none` models Python `None`)
and `error_message`. -/
structure StkResult where
  success : Bool
  checkout_request_id : Option String
  error_message : String
deriving DecidableEq, Repr

/-- Outbound provider calls, for tracking when the network is touched. -/
inductive ProviderCall where
  | tokenRequest
  | stkRequest
deriving DecidableEq, Repr

/-- `stk_push` (`mpesa.py`): token acquisition first, then local phone
and amount validation, then the signed initiation request. Returns the
result dict together with the list of provider calls performed, in
order. The password/timestamp computation has no observable effect on
the result and is elided. -/
def stk_push (env : StkEnv) (phone_number : String) (amount : ℤ)
    (_account_reference : String) (_callback_url : String) :
    StkResult × List ProviderCall :=
  let acquired := get_access_token env.tokenEnv
  let calls0 : List ProviderCall :=
    if acquired.2 then [ProviderCall.tokenRequest] else []
  match acquired.1 with
  | none =>
      (⟨false, none, "Failed to get access token" ++ env.diagSuffix⟩, calls0)
  | some _token =>
    let phone := normalizePhone phone_number
    if ¬ (isDigits phone) ∨ phone.length ≠ 12 ∨ ¬ (strStartsWith phone "254") then
      (⟨false, none,
        "Invalid phone number format. Expected 12 digits starting with 254, got: "
          ++ phone⟩, calls0)
    else if amount < 1 then
      (⟨false, none, "Amount must be at least 1 KES"⟩, calls0)
    else
      let passkey := pyStrip env.passkey
      if passkey = "" then
        (⟨false, none, "MPESA_PASSKEY not set"⟩, calls0)
      else
        let calls := calls0 ++ [ProviderCall.stkRequest]
        match env.http with
        | HttpResult.timeout =>
            (⟨false, none, "Request timeout - please try again"⟩, calls)
        | HttpResult.requestError m =>
            (⟨false, none, "Network error: " ++ m⟩, calls)
        | HttpResult.otherError m =>
            (⟨false, none, "Unexpected error: " ++ m⟩, calls)
        | HttpResult.response status text body =>
          if status ≠ 200 then
            (⟨false, none,
              "HTTP " ++ toString status ++ ": " ++ (strTake text 200)⟩, calls)
          else
            match body with
            | none =>
                (⟨false, none, "Invalid JSON response: " ++ text⟩, calls)
            | some data =>
              if data.errorCode.isSome ∨ data.errorMessage.isSome then
                (⟨false, none,
                  "Error " ++ data.errorCode.getD "Unknown" ++ ": "
                    ++ data.errorMessage.getD "Unknown error"⟩, calls)
              else
                let rc := pyStrip (data.responseCode.getD "")
                let cid := pyStrip (data.checkoutRequestID.getD "")
                if rc = "0" ∧ cid ≠ "" then
                  (⟨true, some cid, ""⟩, calls)
                else
                  (⟨false, if cid = "" then none else some cid,
                    "ResponseCode " ++ rc ++ ": "
                      ++ data.responseDescription.getD "Unknown error"⟩, calls)

/-- The `amount` field of the initiate request body: absent key, a
value on which `int(round(float(amount)))` raises `TypeError` or
`ValueError` (the only exceptions the view catches there, answered 400
"Invalid amount" — e.g. a non-numeric string), or a numeric value. An
`Infinity` amount, on which `round` raises an UNCAUGHT `OverflowError`
(HTTP 500 from the framework, after validation of the phone but before
any Order row is created), is outside this type; no claim concerns
that path. -/
inductive AmountField where
  | absent
  | invalid
  | num (cents : ℤ)
deriving DecidableEq, Repr

/-- Decoded JSON body of the initiate request, restricted to the keys
the view reads and to the shapes on which its reads do not raise:
`phoneNumber` is an absent/null (`none`) or string value — the view's
`try` catches only `JSONDecodeError`/`TypeError`, so a truthy
non-string `phone_number` (`.strip()` raises `AttributeError`) or a
non-dict body (`.get` raises) escapes as an uncaught HTTP 500 with no
Order created; those raising shapes are outside this type and no claim
concerns them. -/
structure InitBody where
  phoneNumber : Option String
  amount : AmountField
deriving DecidableEq, Repr

/-- JSON response of the initiate view. -/
structure InitResponse where
  httpStatus : Nat
  success : Bool
  error : Option String
  checkoutRequestId : Option String
  orderId : Option Nat
deriving DecidableEq, Repr

/-- Result of one call to the initiate view: updated Order table and
HTTP response. -/
structure InitResult where
  orders : List Order
  response : InitResponse
deriving DecidableEq, Repr

/-- The validation-error responses of the initiate view. -/
def initReject (db : List Order) (msg : String) : InitResult :=
  ⟨db, ⟨400, false, some msg, none, none⟩⟩

/-- The `initiate_stk_push` view (`views.py`). `userId` is the
authenticated requester, `db` the Order table, `nextOrderId` the id the
next created row receives, `cart` the cart items of the requester and
`payload` the decode result of the request body (`none` = undecodable
JSON). The Order row is created in `pending` state before `stk_push`
is called and mutated afterwards; the returned table is the final
state. -/
def initiate_stk_push (env : StkEnv) (userId : Nat) (db : List Order)
    (nextOrderId : Nat) (cart : List CartItem) (callback_url : String)
    (payload : Option InitBody) : InitResult :=
  match payload with
  | none => initReject db "Invalid JSON"
  | some body =>
    let phone := stripSpaces (pyStrip (body.phoneNumber.getD ""))
    if phone = "" ∨ phone.length ≠ 12 ∨ ¬ (isDigits phone) then
      initReject db "Phone must be 12 digits (e.g. 254712345678)"
    else
      match body.amount with
      | AmountField.absent => initReject db "amount required"
      | AmountField.invalid => initReject db "Invalid amount"
      | AmountField.num cents =>
        let amount := pyRound cents
        if amount < 1 then
          initReject db "Amount must be at least 1 KES"
        else
          let cartTotal := cartGetTotal cart
          if amount ≠ pyRound cartTotal then
            initReject db "Amount does not match cart total"
          else
            let created : Order :=
              { id := nextOrderId
                userId := userId
                totalAmount := amount
                phoneNumber := phone
                status := OrderStatus.pending
                checkoutRequestId := ""
                mpesaReceiptNumber := ""
                mpesaResponse := ""
                updatedAt := 0 }
            let result :=
              (stk_push env phone amount ("Zao" ++ toString nextOrderId)
                callback_url).1
            if ¬ result.success then
              let failed :=
                { created with
                  status := OrderStatus.failed
                  mpesaResponse := result.error_message }
              ⟨db ++ [failed],
               ⟨502, false, some result.error_message, none, none⟩⟩
            else
              let stored :=
                { created with
                  checkoutRequestId := result.checkout_request_id.getD "" }
              ⟨db ++ [stored],
               ⟨200, true, none, result.checkout_request_id,
                some nextOrderId⟩⟩

/-- Response of the `payment_status` view. -/
inductive PollResult where
  | notFound
  | ok (status : OrderStatus) (orderId : Nat) (receiptNumber : String)
deriving DecidableEq, Repr

/-- The `payment_status` view (`views.py`):
`get_object_or_404(Order, checkout_request_id=cid, user=request.user)`,
modelled as first row matching both the correlation id and the owner. -/
def payment_status (db : List Order) (userId : Nat) (cid : String) :
    PollResult :=
  match db.find? (fun o => o.checkoutRequestId == cid && o.userId == userId) with
  | none => PollResult.notFound
  | some o => PollResult.ok o.status o.id o.mpesaReceiptNumber

/-! ## Concrete fixtures used by counterexamples and witnesses -/

/-- Environment in which the token call cannot even start: credentials
absent (so `get_access_token` fails before any network traffic). -/
def tokenFailEnv : StkEnv :=
  { tokenEnv := { consumerKey := "", consumerSecret := "", http := HttpResult.timeout }
    diagSuffix := ""
    passkey := "passkey"
    http := HttpResult.timeout }

/-- A token environment in which acquisition succeeds. -/
def goodTokenEnv : TokenEnv :=
  { consumerKey := "consumerkey123"
    consumerSecret := "consumersecret123"
    http := HttpResult.response 200 "" (some ⟨none, none, some "token12345"⟩) }

/-- A token environment with plausible credentials but a 401 from the
provider: the token request is issued and fails. -/
def tokenDownEnv : TokenEnv :=
  { consumerKey := "consumerkey123"
    consumerSecret := "consumersecret123"
    http := HttpResult.response 401 "Unauthorized" none }

/-- Gateway environment whose initiation response carries an
`errorMessage` key next to a success-looking `ResponseCode`/id pair. -/
def stkErrKeyEnv : StkEnv :=
  { tokenEnv := goodTokenEnv
    diagSuffix := ""
    passkey := "passkey"
    http := HttpResult.response 200 ""
      (some ⟨none, some "boom", some "0", some "ws_CO_9", none⟩) }

/-- Gateway environment in which token acquisition is attempted over
the network and fails; the initiation endpoint is never reached. -/
def tokenDownStkEnv : StkEnv :=
  { tokenEnv := tokenDownEnv
    diagSuffix := ""
    passkey := "passkey"
    http := HttpResult.timeout }

/-- Gateway environment answering the initiation request with HTTP 200,
a non-empty `CheckoutRequestID` and a non-`"0"` `ResponseCode`. -/
def stkDeclinedEnv : StkEnv :=
  { tokenEnv := goodTokenEnv
    diagSuffix := ""
    passkey := "passkey"
    http := HttpResult.response 200 ""
      (some ⟨none, none, some "1032", some "ws_CO_7",
             some "Request cancelled by user"⟩) }

/-- Gateway environment answering the initiation request successfully. -/
def stkOkEnv : StkEnv :=
  { tokenEnv := goodTokenEnv
    diagSuffix := ""
    passkey := "passkey"
    http := HttpResult.response 200 ""
      (some ⟨none, none, some "0", some "ws_CO_1", some "Success"⟩) }

/-- An order already reconciled to `paid`. -/
def paidOrder : Order :=
  { id := 1, userId := 1, totalAmount := 500
    phoneNumber := "254712345678", status := OrderStatus.paid
    checkoutRequestId := "ws_CO_1", mpesaReceiptNumber := "NLJ7RT61SV"
    mpesaResponse := "raw", updatedAt := 3 }

/-- The success payload whose reconciliation produced `paidOrder`. -/
def replayCb : StkCallback :=
  ⟨some 0, some "ws_CO_1", [⟨some "MpesaReceiptNumber", some "NLJ7RT61SV"⟩]⟩

/-- A pending order awaiting its callback. -/
def pendOrder : Order :=
  { id := 2, userId := 1, totalAmount := 500
    phoneNumber := "254712345678", status := OrderStatus.pending
    checkoutRequestId := "ws_1", mpesaReceiptNumber := ""
    mpesaResponse := "", updatedAt := 0 }

/-- A failed order that still carries its correlation id (its initiation
succeeded and a failure callback or timeout was reconciled earlier). -/
def failedOrder : Order :=
  { id := 3, userId := 1, totalAmount := 500
    phoneNumber := "254712345678", status := OrderStatus.failed
    checkoutRequestId := "ws_CO_2", mpesaReceiptNumber := ""
    mpesaResponse := "", updatedAt := 1 }

/-! ## Helper lemmas -/

/-- Appending to a nonempty string yields a nonempty string. -/
theorem append_ne_empty_left (s t : String) (h : s ≠ "") : s ++ t ≠ "" := by
  intro he
  apply h
  have hd : (s ++ t).data = [] := by rw [he]
  rw [String.data_append] at hd
  have h1 := (List.append_eq_nil.mp hd).1
  cases s
  cases h1
  rfl

/-- Membership in `updateFirst`: every row of the updated table is
either an untouched row of the old table or the image of a row under
the update. -/
theorem mem_updateFirst {db : List Order} {cid : String} {f : Order → Order}
    {x : Order} (hx : x ∈ updateFirst db cid f) :
    x ∈ db ∨ ∃ y ∈ db, x = f y := by
  induction db with
  | nil => simp [updateFirst] at hx
  | cons o rest ih =>
    by_cases hc : o.checkoutRequestId == cid
    · simp only [updateFirst, hc, if_pos] at hx
      rcases List.mem_cons.mp hx with h | h
      · exact Or.inr ⟨o, List.mem_cons_self o rest, h⟩
      · exact Or.inl (List.mem_cons_of_mem o h)
    · simp only [updateFirst, hc, if_neg] at hx
      rcases List.mem_cons.mp hx with h | h
      · exact Or.inl (h ▸ List.mem_cons_self o rest)
      · rcases ih h with h2 | ⟨y, hy, hxy⟩
        · exact Or.inl (List.mem_cons_of_mem o h2)
        · exact Or.inr ⟨y, List.mem_cons_of_mem o hy, hxy⟩

/-- If `find?` locates a row by correlation id, the updated table
contains the image of that row. -/
theorem updated_mem_updateFirst {db : List Order} {cid : String} {o : Order}
    (hf : db.find? (fun x => x.checkoutRequestId == cid) = some o)
    (f : Order → Order) : f o ∈ updateFirst db cid f := by
  induction db with
  | nil => simp at hf
  | cons hd rest ih =>
    by_cases hc : hd.checkoutRequestId == cid
    · rw [List.find?_cons] at hf
      simp only [hc] at hf
      simp only [Option.some.injEq] at hf
      subst hf
      simp [updateFirst, hc]
    · rw [List.find?_cons] at hf
      simp only [Bool.not_eq_true] at hc
      simp only [hc] at hf
      simp only [updateFirst, hc, Bool.false_eq_true, if_neg, not_false_iff]
      simpa using Or.inr (ih hf)

/-- On non-raising requests the total view model agrees with
`mpesa_callback` (which is its restriction to such requests): for a
shaped body whose `CheckoutRequestID` read does not raise and whose
metadata chain is well-typed, `mpesa_callback_view` returns exactly the
orders, notifications and (200-wrapped) response of `mpesa_callback`. -/
theorem mpesa_callback_view_agrees
    (db : List Order) (now : Nat) (s : String)
    (rc : Option Int) (idv : JsonStr) (its : List MetaItem)
    (h : idv ≠ JsonStr.truthyNonStr) :
    mpesa_callback_view db now s
        (CallbackRequest.shaped ⟨rc, idv, MetadataField.items its⟩) =
      ⟨(mpesa_callback db now s (some ⟨rc, idv.toOpt, its⟩)).orders,
       (mpesa_callback db now s (some ⟨rc, idv.toOpt, its⟩)).notifications,
       some (mpesa_callback db now s (some ⟨rc, idv.toOpt, its⟩)).response⟩ := by
  cases idv with
  | truthyNonStr => exact absurd rfl h
  | absentOrFalsy =>
    simp only [mpesa_callback_view, mpesa_callback, JsonStr.orEmpty,
      JsonStr.toOpt, Option.getD_none]
    rw [if_neg (by simp), if_pos (by decide : pyStrip "" = ""),
      if_pos (by decide : pyStrip "" = "")]
  | str s2 =>
    simp only [mpesa_callback_view, mpesa_callback, JsonStr.orEmpty,
      JsonStr.toOpt, Option.getD_some]
    rw [if_neg (by simp)]
    by_cases hcid : pyStrip s2 = ""
    · rw [if_pos hcid, if_pos hcid]
    · rw [if_neg hcid, if_neg hcid]
      cases hfind : db.find? (fun o => o.checkoutRequestId == pyStrip s2) with
      | none => simp only [hfind]
      | some o =>
        simp only [hfind]
        by_cases hrc : rc = some 0
        · rw [if_pos hrc, if_pos hrc]
        · rw [if_neg hrc, if_neg hrc]

/-! ## Claim C1 -/

/-- Claim C8: a success callback whose correlation id matches an Order
in state `failed` still reconciles it to `paid`; the `failed → paid`
transition is permitted on the callback path. -/
theorem C8_failed_order_reconciles_to_paid
    (db : List Order) (now : Nat) (s : String) (cb : StkCallback)
    (o : Order) (cid : String)
    (hcid : pyStrip (cb.checkoutRequestID.getD "") = cid)
    (hne : cid ≠ "")
    (hfind : db.find? (fun x => x.checkoutRequestId == cid) = some o)
    (hst : o.status = OrderStatus.failed)
    (hrc : cb.resultCode = some 0) :
    ∃ u ∈ (mpesa_callback db now s (some cb)).orders,
      u.id = o.id ∧ u.status = OrderStatus.paid := by
  simp only [mpesa_callback, hcid, if_neg hne, hfind, hrc, if_pos]
  exact ⟨_, updated_mem_updateFirst hfind _, rfl, rfl⟩

/-- Claim C8 witness: a concrete failed order with a stored correlation
id is moved to `paid` by a matching success callback. -/
theorem C8_witness :
    ∃ u ∈ (mpesa_callback [failedOrder] 7 "b"
        (some ⟨some 0, some "ws_CO_2",
               [⟨some "MpesaReceiptNumber", some "XYZ123"⟩]⟩)).orders,
      u.id = failedOrder.id ∧ u.status = OrderStatus.paid :=
  C8_failed_order_reconciles_to_paid [failedOrder] 7 "b" _ failedOrder
    "ws_CO_2" (by decide) (by decide) (by decide) (by decide) (by decide)

/-! ## Claim C9 -/

/-- Claim C9: `payment_status` is ownership-scoped — when no row with
the polled correlation id belongs to the requester (in particular when
the requester differs from the owner of the existing matching Order),
the poll answers not-found even though the Order exists. -/
theorem C9_poll_scoped_to_owner
    (db : List Order) (requester : Nat) (cid : String) (order : Order)
    (hmem : order ∈ db)
    (hcid : order.checkoutRequestId = cid)
    (hall : ∀ o ∈ db, o.checkoutRequestId = cid → o.userId ≠ requester) :
    payment_status db requester cid = PollResult.notFound := by
  unfold payment_status
  have hnone : db.find?
      (fun o => o.checkoutRequestId == cid && o.userId == requester) = none := by
    apply List.find?_eq_none.mpr
    intro x hx
    simp only [Bool.and_eq_true, beq_iff_eq, not_and]
    intro h1 h2
    exact hall x hx h1 h2
  rw [hnone]

/-- Claim C9 witness: a different user polling the id of an existing
paid order gets not-found. -/
theorem C9_witness :
    payment_status [paidOrder] 2 "ws_CO_1" = PollResult.notFound :=
  C9_poll_scoped_to_owner [paidOrder] 2 "ws_CO_1" paidOrder
    (by decide) (by decide) (by decide)

/-! ## Claim C4 -/

/-- Claim C4, counterexample: replaying the success callback of an
Order already in `paid` leaves the row unchanged (apart from the
timestamp) but SENDS THE SUCCESS NOTIFICATIONS AGAIN — there is no
status guard on the reconciliation path, so the second reconciliation
is not notification-free as the claim states. -/
theorem C4_replay_resends_notifications :
    (mpesa_callback [paidOrder] 9 "raw" (some replayCb)).orders =
      [{ paidOrder with updatedAt := 9 }] ∧
    (mpesa_callback [paidOrder] 9 "raw" (some replayCb)).notifications =
      [Notification.paymentSuccessEmail 1,
       Notification.adminPaymentNotification 1] := by
  decide

/-- Claim C4, amended: reconciling the same success payload again for a
`paid` Order leaves the status `paid` and the stored receipt unchanged
(the transition is `paid → paid`), but the success notifications are
dispatched again — the endpoint is idempotent on Order state, not on
notifications. -/
theorem C4_replay_keeps_state_but_renotifies
    (db : List Order) (now : Nat) (s : String) (cb : StkCallback)
    (o : Order) (cid : String)
    (hcid : pyStrip (cb.checkoutRequestID.getD "") = cid)
    (hne : cid ≠ "")
    (hfind : db.find? (fun x => x.checkoutRequestId == cid) = some o)
    (hpaid : o.status = OrderStatus.paid)
    (hrcpt : extractReceipt cb.metadataItems = o.mpesaReceiptNumber)
    (hrc : cb.resultCode = some 0) :
    ∃ u, (mpesa_callback db now s (some cb)).orders =
        updateFirst db cid (fun _ => u) ∧
      u.status = o.status ∧
      u.mpesaReceiptNumber = o.mpesaReceiptNumber ∧
      (mpesa_callback db now s (some cb)).notifications =
        [Notification.paymentSuccessEmail o.id,
         Notification.adminPaymentNotification o.id] := by
  simp only [mpesa_callback, hcid, if_neg hne, hfind, hrc, if_pos]
  exact ⟨_, rfl, hpaid.symm, hrcpt, by simp⟩

/-- Claim C4 witness: the amended statement at the concrete paid order
and its recorded success payload. -/
theorem C4_witness :
    ∃ u, (mpesa_callback [paidOrder] 9 "raw" (some replayCb)).orders =
        updateFirst [paidOrder] "ws_CO_1" (fun _ => u) ∧
      u.status = paidOrder.status ∧
      u.mpesaReceiptNumber = paidOrder.mpesaReceiptNumber ∧
      (mpesa_callback [paidOrder] 9 "raw" (some replayCb)).notifications =
        [Notification.paymentSuccessEmail paidOrder.id,
         Notification.adminPaymentNotification paidOrder.id] :=
  C4_replay_keeps_state_but_renotifies [paidOrder] 9 "raw" replayCb
    paidOrder "ws_CO_1" (by decide) (by decide) (by decide) (by decide)
    (by decide) (by decide)

/-! ## Claim C7 -/

/-- Claim C7, counterexample: a success callback whose metadata lacks
the receipt item reconciles the Order to `paid` with an EMPTY receipt,
so "every Order in state paid has a non-empty receipt" fails right
after a reconcile operation. -/
theorem C7_paid_with_empty_receipt :
    ((mpesa_callback [pendOrder] 5 "b"
        (some ⟨some 0, some "ws_1", []⟩)).orders.map
      (fun o => (o.status, o.mpesaReceiptNumber))) =
      [(OrderStatus.paid, "")] := by
  decide

/-- Claim C7, amended: status, receipt and timestamp are written as one
row update, and the invariant "paid implies non-empty receipt" is
preserved by reconciliation PROVIDED every success payload carries a
non-empty `MpesaReceiptNumber` metadata item — the code itself does not
enforce that proviso. -/
theorem C7_paid_receipt_invariant_preserved
    (db : List Order) (now : Nat) (s : String) (cb : StkCallback)
    (hinv : ∀ o ∈ db, o.status = OrderStatus.paid → o.mpesaReceiptNumber ≠ "")
    (hrcpt : cb.resultCode = some 0 → extractReceipt cb.metadataItems ≠ "") :
    ∀ o ∈ (mpesa_callback db now s (some cb)).orders,
      o.status = OrderStatus.paid → o.mpesaReceiptNumber ≠ "" := by
  intro x hx hpx
  simp only [mpesa_callback] at hx
  by_cases hcid : pyStrip (cb.checkoutRequestID.getD "") = ""
  · rw [if_pos hcid] at hx
    exact hinv x hx hpx
  · rw [if_neg hcid] at hx
    cases hfind : db.find?
        (fun o => o.checkoutRequestId == pyStrip (cb.checkoutRequestID.getD "")) with
    | none =>
      simp only [hfind] at hx
      exact hinv x hx hpx
    | some o =>
      simp only [hfind] at hx
      by_cases hrc : cb.resultCode = some 0
      · rw [if_pos hrc] at hx
        rcases mem_updateFirst hx with h | ⟨y, _, hxy⟩
        · exact hinv x h hpx
        · subst hxy
          exact hrcpt hrc
      · rw [if_neg hrc] at hx
        rcases mem_updateFirst hx with h | ⟨y, _, hxy⟩
        · exact hinv x h hpx
        · subst hxy
          simp at hpx

/-- Claim C7 witness: instantiating the invariant preservation on a
concrete reconcile — the updated row, which is in state paid, has a
non-empty receipt. -/
theorem C7_witness :
    ({ paidOrder with updatedAt := 9 } : Order).mpesaReceiptNumber ≠ "" :=
  C7_paid_receipt_invariant_preserved [paidOrder] 9 "raw" replayCb
    (by decide) (by decide) { paidOrder with updatedAt := 9 }
    (by decide) (by decide)

/-! ## Claim C2 -/

/-- Claim C2, counterexample: the server does NOT require the supplied
amount to equal the recomputed cart total exactly — both sides are
rounded to whole currency units first. With a cart total of 500.40
(50040 hundredths) a request for 500 (50000 hundredths) differs from
the total, yet it is accepted and an Order is created. -/
theorem C2_rounding_tolerance_in_cart_check :
    cartGetTotal [⟨25020, 2⟩] = 50040 ∧ (50000 : ℤ) ≠ 50040 ∧
    (initiate_stk_push tokenFailEnv 1 [] 7 [⟨25020, 2⟩] "cb"
      (some ⟨some "254712345678", AmountField.num 50000⟩)).orders.length = 1 ∧
    (initiate_stk_push tokenFailEnv 1 [] 7 [⟨25020, 2⟩] "cb"
      (some ⟨some "254712345678", AmountField.num 50000⟩)).response.httpStatus
      ≠ 400 := by
  decide

/-- Claim C2, amended: the initiate view rejects with HTTP 400 and
creates no Order whenever the supplied amount and the recomputed cart
total differ AFTER each is rounded to the nearest whole unit
(`int(round(.))`, ties to even); equality is checked on the rounded
values, not exactly. -/
theorem C2_mismatch_after_rounding_rejected
    (env : StkEnv) (uid : Nat) (db : List Order) (nid : Nat)
    (cart : List CartItem) (cburl phoneRaw : String) (cents : ℤ)
    (hphone : ¬(stripSpaces (pyStrip phoneRaw) = "" ∨
      (stripSpaces (pyStrip phoneRaw)).length ≠ 12 ∨
      ¬ isDigits (stripSpaces (pyStrip phoneRaw))))
    (hge : 1 ≤ pyRound cents)
    (hmis : pyRound cents ≠ pyRound (cartGetTotal cart)) :
    initiate_stk_push env uid db nid cart cburl
      (some ⟨some phoneRaw, AmountField.num cents⟩) =
      initReject db "Amount does not match cart total" := by
  simp only [initiate_stk_push, Option.getD_some]
  rw [if_neg hphone, if_neg (not_lt.mpr hge), if_pos hmis]

/-- Claim C2 witness: amount 500 against a cart totalling 499 is
rejected and the table is unchanged. -/
theorem C2_witness :
    initiate_stk_push tokenFailEnv 1 [] 7 [⟨49900, 1⟩] "cb"
      (some ⟨some "254712345678", AmountField.num 50000⟩) =
      initReject [] "Amount does not match cart total" :=
  C2_mismatch_after_rounding_rejected tokenFailEnv 1 [] 7 [⟨49900, 1⟩]
    "cb" "254712345678" 50000 (by decide) (by decide) (by decide)

/-! ## Claim C3 -/

/-- Claim C3, counterexample: the boundary validation of the initiate
view checks only that the phone is 12 numeric digits, NOT the 254
country-code requirement of 4.1. A 12-digit phone without the 254
country code passes the boundary and an Order row IS persisted (the
gateway client rejects it only afterwards, with the row already in
`failed`). -/
theorem C3_no_country_code_check_at_boundary :
    strStartsWith "123456789012" "254" = false ∧
    (initiate_stk_push tokenFailEnv 1 [] 7 [⟨50000, 1⟩] "cb"
      (some ⟨some "123456789012", AmountField.num 50000⟩)).orders.length
      = 1 := by
  decide

/-- Claim C3, amended: the boundary validation rejects with HTTP 400
and persists no Order when the normalized phone is empty, not 12
characters long or not all digits, or when the rounded amount is below
1; the 254 country-code rule is NOT part of the boundary check (it is
enforced later inside `stk_push`, after the Order row exists). -/
theorem C3_boundary_validation
    (env : StkEnv) (uid : Nat) (db : List Order) (nid : Nat)
    (cart : List CartItem) (cburl : String)
    (phoneField : Option String) (amtField : AmountField) (cents : ℤ) :
    ((stripSpaces (pyStrip (phoneField.getD "")) = "" ∨
      (stripSpaces (pyStrip (phoneField.getD ""))).length ≠ 12 ∨
      ¬ isDigits (stripSpaces (pyStrip (phoneField.getD "")))) →
      initiate_stk_push env uid db nid cart cburl
        (some ⟨phoneField, amtField⟩) =
        initReject db "Phone must be 12 digits (e.g. 254712345678)") ∧
    (¬(stripSpaces (pyStrip (phoneField.getD "")) = "" ∨
      (stripSpaces (pyStrip (phoneField.getD ""))).length ≠ 12 ∨
      ¬ isDigits (stripSpaces (pyStrip (phoneField.getD "")))) →
      amtField = AmountField.num cents →
      pyRound cents < 1 →
      initiate_stk_push env uid db nid cart cburl
        (some ⟨phoneField, amtField⟩) =
        initReject db "Amount must be at least 1 KES") := by
  constructor
  · intro h
    simp only [initiate_stk_push]
    rw [if_pos h]
  · intro hval hamt hlt
    subst hamt
    simp only [initiate_stk_push]
    rw [if_neg hval, if_pos hlt]

/-- Claim C3 witness: a 10-digit phone is rejected at the boundary with
no Order, and a valid phone with amount rounding to 0 is rejected with
no Order. -/
theorem C3_witness :
    (initiate_stk_push tokenFailEnv 1 [] 7 [⟨50000, 1⟩] "cb"
      (some ⟨some "0712345678", AmountField.num 50000⟩) =
      initReject [] "Phone must be 12 digits (e.g. 254712345678)") ∧
    (initiate_stk_push tokenFailEnv 1 [] 7 [⟨50000, 1⟩] "cb"
      (some ⟨some "254712345678", AmountField.num 40⟩) =
      initReject [] "Amount must be at least 1 KES") :=
  ⟨(C3_boundary_validation tokenFailEnv 1 [] 7 [⟨50000, 1⟩] "cb"
      (some "0712345678") (AmountField.num 50000) 50000).1 (by decide),
   (C3_boundary_validation tokenFailEnv 1 [] 7 [⟨50000, 1⟩] "cb"
      (some "254712345678") (AmountField.num 40) 40).2 (by decide) rfl
      (by decide)⟩

/-! ## Claim C6 -/

/-- Claim C6, counterexample: `stk_push` calls the token endpoint
BEFORE validating the phone number. With an invalid phone (10 digits,
no country code) and a failing token call, the result is the
token-acquisition failure — not the validation failure — and a network
call to the provider was made. The validation is therefore neither
first nor independent of the provider response. -/
theorem C6_token_call_precedes_validation :
    stk_push tokenDownStkEnv "0712345678" 500 "Zao1" "cb" =
      (⟨false, none, "Failed to get access token"⟩,
       [ProviderCall.tokenRequest]) ∧
    (normalizePhone "0712345678").length ≠ 12 := by
  decide

/-- Claim C6, amended: local validation happens AFTER token
acquisition but BEFORE the initiation call: whenever the token was
acquired, an invalid phone (or, with a valid phone, an amount below 1)
yields the corresponding validation failure and the initiation request
is never sent. -/
theorem C6_validation_before_initiation_call
    (env : StkEnv) (p : String) (a : ℤ) (ref cb : String)
    (tok : String) (called : Bool)
    (htok : get_access_token env.tokenEnv = (some tok, called)) :
    ((¬ isDigits (normalizePhone p) ∨ (normalizePhone p).length ≠ 12 ∨
        ¬ strStartsWith (normalizePhone p) "254") →
      stk_push env p a ref cb =
        (⟨false, none,
          "Invalid phone number format. Expected 12 digits starting with 254, got: "
            ++ normalizePhone p⟩,
         if called then [ProviderCall.tokenRequest] else [])) ∧
    (¬(¬ isDigits (normalizePhone p) ∨ (normalizePhone p).length ≠ 12 ∨
        ¬ strStartsWith (normalizePhone p) "254") →
      a < 1 →
      stk_push env p a ref cb =
        (⟨false, none, "Amount must be at least 1 KES"⟩,
         if called then [ProviderCall.tokenRequest] else [])) := by
  constructor
  · intro h
    simp only [stk_push, htok]
    rw [if_pos h]
  · intro hval hlt
    simp only [stk_push, htok]
    rw [if_neg hval, if_pos hlt]

/-- Claim C6 witness: with a working token environment, an invalid
phone and a sub-unit amount are each rejected locally with no
initiation call issued. -/
theorem C6_witness :
    (stk_push stkDeclinedEnv "0712345678" 500 "Zao1" "cb" =
      (⟨false, none,
        "Invalid phone number format. Expected 12 digits starting with 254, got: "
          ++ normalizePhone "0712345678"⟩,
       if true then [ProviderCall.tokenRequest] else [])) ∧
    (stk_push stkDeclinedEnv "254712345678" 0 "Zao1" "cb" =
      (⟨false, none, "Amount must be at least 1 KES"⟩,
       if true then [ProviderCall.tokenRequest] else [])) :=
  ⟨(C6_validation_before_initiation_call stkDeclinedEnv "0712345678" 500
      "Zao1" "cb" "token12345" true (by decide)).1 (by decide),
   (C6_validation_before_initiation_call stkDeclinedEnv "254712345678" 0
      "Zao1" "cb" "token12345" true (by decide)).2 (by decide) (by decide)⟩

/-! ## Claim C5 -/

/-- Claim C5, counterexample: a provider response whose body contains
an `errorMessage` key is classified as Failure EVEN IF its
`ResponseCode` is the literal `"0"` and a non-empty `CheckoutRequestID`
is present, so "Success exactly when code is 0 and id non-empty" does
not hold for every provider response. -/
theorem C5_error_key_overrides_success_shape :
    (stk_push stkErrKeyEnv "254712345678" 500 "Zao1" "cb").1.success
      = false ∧
    pyStrip ((some "0" : Option String).getD "") = "0" ∧
    pyStrip ((some "ws_CO_9" : Option String).getD "") ≠ "" := by
  decide

/-- Claim C5, amended: `stk_push` returns Success (with the non-empty
trimmed correlation id and empty message) exactly when the token was
acquired, the phone and amount pass local validation, the passkey is
configured, and the provider answered HTTP 200 with a decodable body
free of `errorCode`/`errorMessage` keys whose trimmed `ResponseCode` is
the literal `"0"` and whose trimmed `CheckoutRequestID` is non-empty;
every other outcome is a Failure with a non-empty message, and the
result never has both an empty correlation id and an empty message. -/
theorem C5_success_characterization
    (env : StkEnv) (p : String) (a : ℤ) (ref cb : String) :
    ((stk_push env p a ref cb).1.success = true ↔
      ((∃ tok called, get_access_token env.tokenEnv = (some tok, called)) ∧
       (isDigits (normalizePhone p) ∧ (normalizePhone p).length = 12 ∧
        strStartsWith (normalizePhone p) "254") ∧
       1 ≤ a ∧ pyStrip env.passkey ≠ "" ∧
       (∃ text data, env.http = HttpResult.response 200 text (some data) ∧
         data.errorCode = none ∧ data.errorMessage = none ∧
         pyStrip (data.responseCode.getD "") = "0" ∧
         pyStrip (data.checkoutRequestID.getD "") ≠ ""))) ∧
    ((stk_push env p a ref cb).1.success = true →
      ∃ c, (stk_push env p a ref cb).1.checkout_request_id = some c ∧
        c ≠ "") ∧
    ((stk_push env p a ref cb).1.success = false →
      (stk_push env p a ref cb).1.error_message ≠ "") := by
  rcases hga : get_access_token env.tokenEnv with ⟨tokOpt, called⟩
  cases tokOpt with
  | none =>
    simp only [stk_push, hga]
    refine ⟨⟨fun h => by simp at h, ?_⟩, fun h => by simp at h,
      fun _ => append_ne_empty_left _ _ (by decide)⟩
    rintro ⟨⟨tok, called2, hga2⟩, -⟩
    simp at hga2
  | some tok =>
    by_cases hp : ¬ isDigits (normalizePhone p) ∨
        (normalizePhone p).length ≠ 12 ∨
        ¬ strStartsWith (normalizePhone p) "254"
    · simp only [stk_push, hga]
      rw [if_pos hp]
      refine ⟨⟨fun h => by simp at h, ?_⟩,
        fun h => by simp at h,
        fun _ => append_ne_empty_left _ _ (by decide)⟩
      rintro ⟨-, hphone2, -⟩
      rcases hp with h | h | h <;> tauto
    · by_cases ha : a < 1
      · simp only [stk_push, hga]
        rw [if_neg hp, if_pos ha]
        refine ⟨⟨fun h => by simp at h, ?_⟩,
          fun h => by simp at h, fun _ => by simp⟩
        rintro ⟨-, -, ha2, -⟩
        exact absurd ha (not_lt.mpr ha2)
      · by_cases hpk : pyStrip env.passkey = ""
        · simp only [stk_push, hga]
          rw [if_neg hp, if_neg ha, if_pos hpk]
          refine ⟨⟨fun h => by simp at h, ?_⟩,
            fun h => by simp at h, fun _ => by simp⟩
          rintro ⟨-, -, -, hpk2, -⟩
          exact absurd hpk hpk2
        · cases hhttp : env.http with
          | timeout =>
            simp only [stk_push, hga, hhttp]
            rw [if_neg hp, if_neg ha, if_neg hpk]
            refine ⟨⟨fun h => by simp at h, ?_⟩,
              fun h => by simp at h, fun _ => by simp⟩
            rintro ⟨-, -, -, -, text2, data2, heq, -⟩
            simp at heq
          | requestError m =>
            simp only [stk_push, hga, hhttp]
            rw [if_neg hp, if_neg ha, if_neg hpk]
            refine ⟨⟨fun h => by simp at h, ?_⟩,
              fun h => by simp at h,
              fun _ => append_ne_empty_left _ _ (by decide)⟩
            rintro ⟨-, -, -, -, text2, data2, heq, -⟩
            simp at heq
          | otherError m =>
            simp only [stk_push, hga, hhttp]
            rw [if_neg hp, if_neg ha, if_neg hpk]
            refine ⟨⟨fun h => by simp at h, ?_⟩,
              fun h => by simp at h,
              fun _ => append_ne_empty_left _ _ (by decide)⟩
            rintro ⟨-, -, -, -, text2, data2, heq, -⟩
            simp at heq
          | response status text body =>
            simp only [stk_push, hga, hhttp]
            rw [if_neg hp, if_neg ha, if_neg hpk]
            by_cases hs : status ≠ 200
            · rw [if_pos hs]
              refine ⟨⟨fun h => by simp at h, ?_⟩,
                fun h => by simp at h,
                fun _ => append_ne_empty_left _ _
                  (append_ne_empty_left _ _
                    (append_ne_empty_left _ _ (by decide)))⟩
              rintro ⟨-, -, -, -, text2, data2, heq, -⟩
              simp only [HttpResult.response.injEq] at heq
              exact absurd heq.1 hs
            · rw [if_neg hs]
              have hs200 : status = 200 := not_ne_iff.mp hs
              subst hs200
              cases body with
              | none =>
                refine ⟨⟨fun h => by simp at h, ?_⟩,
                  fun h => by simp at h,
                  fun _ => append_ne_empty_left _ _ (by decide)⟩
                rintro ⟨-, -, -, -, text2, data2, heq, -⟩
                simp at heq
              | some data =>
                simp only []
                by_cases herr : data.errorCode.isSome ∨ data.errorMessage.isSome
                · rw [if_pos herr]
                  refine ⟨⟨fun h => by simp at h, ?_⟩,
                    fun h => by simp at h,
                    fun _ => append_ne_empty_left _ _
                      (append_ne_empty_left _ _
                        (append_ne_empty_left _ _ (by decide)))⟩
                  rintro ⟨-, -, -, -, text2, data2, heq, hec, hem, -⟩
                  simp only [HttpResult.response.injEq, Option.some.injEq] at heq
                  rcases heq with ⟨-, -, hdd⟩
                  subst hdd
                  rcases herr with h | h
                  · rw [hec] at h
                    simp at h
                  · rw [hem] at h
                    simp at h
                · rw [if_neg herr]
                  by_cases hok : pyStrip (data.responseCode.getD "") = "0" ∧
                      pyStrip (data.checkoutRequestID.getD "") ≠ ""
                  · rw [if_pos hok]
                    push_neg at hp herr
                    refine ⟨⟨fun _ => ?_, fun _ => rfl⟩,
                      fun _ => ⟨pyStrip (data.checkoutRequestID.getD ""),
                        rfl, hok.2⟩,
                      fun h => by simp at h⟩
                    exact ⟨⟨tok, called, rfl⟩,
                      ⟨hp.1, hp.2.1, hp.2.2⟩, not_lt.mp ha, hpk,
                      text, data, rfl,
                      Option.not_isSome_iff_eq_none.mp herr.1,
                      Option.not_isSome_iff_eq_none.mp herr.2,
                      hok.1, hok.2⟩
                  · rw [if_neg hok]
                    refine ⟨⟨fun h => by simp at h, ?_⟩,
                      fun h => by simp at h,
                      fun _ => append_ne_empty_left _ _
                        (append_ne_empty_left _ _
                          (append_ne_empty_left _ _ (by decide)))⟩
                    rintro ⟨-, -, -, -, text2, data2, heq, -, -, hrc2, hcid2⟩
                    simp only [HttpResult.response.injEq, Option.some.injEq] at heq
                    rcases heq with ⟨-, -, hdd⟩
                    subst hdd
                    exact absurd ⟨hrc2, hcid2⟩ hok

/-- Claim C5 witness: the characterization at a concrete declined
response — Failure with a non-empty message and, via the iff, the
success shape does not hold there. -/
theorem C5_witness :
    (stk_push stkDeclinedEnv "254712345678" 500 "Zao1" "cb").1.error_message
      ≠ "" :=
  (C5_success_characterization stkDeclinedEnv "254712345678" 500 "Zao1"
    "cb").2.2 (by decide)

/-! ## Claim C10 -/

/-- Claim C10: when the provider answers HTTP 200 with a non-empty
`CheckoutRequestID` and a `ResponseCode` other than `"0"` (and no
error keys), `stk_push` returns a Failure that still carries that id in
its `checkout_request_id` field; the initiate view does not store it —
the created Order ends `failed` with an empty `checkoutRequestId` — so
a later callback bearing that id matches no Order and mutates nothing.
Stated for a concrete valid request (phone 254712345678, amount 500
matching the cart) and arbitrary provider data, table and callback. -/
theorem C10_declined_id_returned_but_not_stored
    (env : StkEnv) (uid : Nat) (db : List Order) (nid : Nat)
    (cburl : String) (tok : String) (called : Bool)
    (text : String) (data : StkBody) (c : String)
    (now : Nat) (s : String) (rcode2 : Option Int) (items : List MetaItem)
    (htok : get_access_token env.tokenEnv = (some tok, called))
    (hpk : pyStrip env.passkey ≠ "")
    (hhttp : env.http = HttpResult.response 200 text (some data))
    (hec : data.errorCode = none)
    (hem : data.errorMessage = none)
    (hrc : pyStrip (data.responseCode.getD "") ≠ "0")
    (hcid : pyStrip (data.checkoutRequestID.getD "") = c)
    (hcne : c ≠ "")
    (hdb : ∀ o ∈ db, o.checkoutRequestId ≠ c) :
    ((stk_push env "254712345678" 500 ("Zao" ++ toString nid) cburl).1 =
      ⟨false, some c,
       "ResponseCode " ++ pyStrip (data.responseCode.getD "") ++ ": " ++
         data.responseDescription.getD "Unknown error"⟩) ∧
    (initiate_stk_push env uid db nid [⟨50000, 1⟩] cburl
        (some ⟨some "254712345678", AmountField.num 50000⟩) =
      ⟨db ++ [⟨nid, uid, 500, "254712345678", OrderStatus.failed, "", "",
              "ResponseCode " ++ pyStrip (data.responseCode.getD "") ++ ": " ++
                data.responseDescription.getD "Unknown error", 0⟩],
       ⟨502, false,
        some ("ResponseCode " ++ pyStrip (data.responseCode.getD "") ++ ": " ++
          data.responseDescription.getD "Unknown error"), none, none⟩⟩) ∧
    (mpesa_callback
        (initiate_stk_push env uid db nid [⟨50000, 1⟩] cburl
          (some ⟨some "254712345678", AmountField.num 50000⟩)).orders
        now s (some ⟨rcode2, data.checkoutRequestID, items⟩) =
      ⟨(initiate_stk_push env uid db nid [⟨50000, 1⟩] cburl
          (some ⟨some "254712345678", AmountField.num 50000⟩)).orders,
       [], ackResponse⟩) := by
  have hstk : (stk_push env "254712345678" 500
      ("Zao" ++ toString nid) cburl).1 =
      ⟨false, some c,
       "ResponseCode " ++ pyStrip (data.responseCode.getD "") ++ ": " ++
         data.responseDescription.getD "Unknown error"⟩ := by
    simp only [stk_push, htok, hhttp]
    rw [if_neg (by decide : ¬(¬ isDigits (normalizePhone "254712345678") ∨
      (normalizePhone "254712345678").length ≠ 12 ∨
      ¬ strStartsWith (normalizePhone "254712345678") "254"))]
    rw [if_neg (by decide : ¬((500 : ℤ) < 1))]
    rw [if_neg hpk]
    rw [if_neg (by decide : ¬((200 : Nat) ≠ 200))]
    simp only [hec, hem, Option.isSome_none]
    rw [if_neg (by simp)]
    rw [if_neg (fun h => hrc h.1)]
    rw [hcid, if_neg hcne]
  have hinit : initiate_stk_push env uid db nid [⟨50000, 1⟩] cburl
      (some ⟨some "254712345678", AmountField.num 50000⟩) =
      ⟨db ++ [⟨nid, uid, 500, "254712345678", OrderStatus.failed, "", "",
              "ResponseCode " ++ pyStrip (data.responseCode.getD "") ++ ": " ++
                data.responseDescription.getD "Unknown error", 0⟩],
       ⟨502, false,
        some ("ResponseCode " ++ pyStrip (data.responseCode.getD "") ++ ": " ++
          data.responseDescription.getD "Unknown error"), none, none⟩⟩ := by
    simp only [initiate_stk_push, Option.getD_some]
    rw [if_neg (by decide :
      ¬(stripSpaces (pyStrip "254712345678") = "" ∨
        (stripSpaces (pyStrip "254712345678")).length ≠ 12 ∨
        ¬ isDigits (stripSpaces (pyStrip "254712345678"))))]
    rw [if_neg (by decide : ¬(pyRound 50000 < 1))]
    rw [if_neg (by decide :
      ¬(pyRound 50000 ≠ pyRound (cartGetTotal [⟨50000, 1⟩])))]
    rw [(by decide : stripSpaces (pyStrip "254712345678") = "254712345678"),
      (by decide : pyRound 50000 = (500 : ℤ))]
    rw [hstk]
    rw [if_pos (by simp)]
  refine ⟨hstk, hinit, ?_⟩
  rw [hinit]
  simp only [mpesa_callback, hcid]
  rw [if_neg hcne]
  have hnone : (db ++ [(⟨nid, uid, 500, "254712345678", OrderStatus.failed,
      "", "", "ResponseCode " ++ pyStrip (data.responseCode.getD "") ++ ": " ++
      data.responseDescription.getD "Unknown error", 0⟩ : Order)]).find?
      (fun o => o.checkoutRequestId == c) = none := by
    apply List.find?_eq_none.mpr
    intro x hx
    rcases List.mem_append.mp hx with h | h
    · simpa using hdb x h
    · rcases List.mem_singleton.mp h with rfl
      simpa using fun he => hcne he.symm
  rw [hnone]

/-- Claim C10 witness: the concrete declined environment — the id is
in the failure result, absent from the stored Order, and the follow-up
callback with that id changes nothing. -/
theorem C10_witness :
    ((stk_push stkDeclinedEnv "254712345678" 500 ("Zao" ++ toString 7)
        "cb").1 =
      ⟨false, some "ws_CO_7",
       "ResponseCode " ++ pyStrip ((some "1032" : Option String).getD "")
         ++ ": " ++
         (some "Request cancelled by user" : Option String).getD
           "Unknown error"⟩) ∧
    (initiate_stk_push stkDeclinedEnv 1 [] 7 [⟨50000, 1⟩] "cb"
        (some ⟨some "254712345678", AmountField.num 50000⟩) =
      ⟨[] ++ [⟨7, 1, 500, "254712345678", OrderStatus.failed, "", "",
              "ResponseCode " ++ pyStrip ((some "1032" : Option String).getD "")
                ++ ": " ++
                (some "Request cancelled by user" : Option String).getD
                  "Unknown error", 0⟩],
       ⟨502, false,
        some ("ResponseCode " ++
          pyStrip ((some "1032" : Option String).getD "") ++ ": " ++
          (some "Request cancelled by user" : Option String).getD
            "Unknown error"), none, none⟩⟩) ∧
    (mpesa_callback
        (initiate_stk_push stkDeclinedEnv 1 [] 7 [⟨50000, 1⟩] "cb"
          (some ⟨some "254712345678", AmountField.num 50000⟩)).orders
        9 "raw" (some ⟨some 0, some "ws_CO_7", []⟩) =
      ⟨(initiate_stk_push stkDeclinedEnv 1 [] 7 [⟨50000, 1⟩] "cb"
          (some ⟨some "254712345678", AmountField.num 50000⟩)).orders,
       [], ackResponse⟩) :=
  C10_declined_id_returned_but_not_stored stkDeclinedEnv 1 [] 7 "cb"
    "token12345" true "" ⟨none, none, some "1032", some "ws_CO_7",
      some "Request cancelled by user"⟩ "ws_CO_7" 9 "raw" (some 0) []
    (by decide) (by decide) (by decide) (by decide) (by decide)
    (by decide) (by decide) (by decide) (by decide)

end Zao
